import Mathlib

/-!
Verification development for the selective knowledge cache and retrieval
engine of the repository: a shallow embedding of
`quality_engineering_agentic_framework/utils/rag/rag_system.py` and of the
RAG phase of
`quality_engineering_agentic_framework/agents/requirement_interpreter.py`
(`TestCaseGenerationAgent.process`), together with proofs about the
embedded operations.

Modelling conventions:
* Filesystem state is explicit: `DataDir` models the `DATA_PATH` document
  directory (file existence, modification times, loader output) and
  `VectorFS` models the `BASE_DIR` directory holding the persisted cache
  record `fingerprint_cache.json` and the `vectordb*` index directories.
* External services (OpenAI embeddings and chat completions, Chroma
  similarity search, the text splitter) are abstracted as function-valued
  parameters; fallible calls return `Except String`.  Building an index
  from supplied chunks is modelled as always succeeding (embedding-service
  failures are outside the model).
* Python exceptions are `Except.error` values; `try/except` blocks become
  pattern matches on those values.
* The md5-of-canonical-JSON fingerprint digest is modelled as an abstract
  function applied to the canonical (sorted, deduplicated) name-to-mtime
  association list; `json.dumps(state, sort_keys=True)` is injective on
  such dictionaries, so collision-freeness of the real digest corresponds
  to injectivity of the abstract one.
* Python string primitives that the code uses (`startswith`, `endswith`,
  `split("\n")`, `strip`, `lower`, `in`, `"sep".join`) are embedded as
  list-of-character computations so that concrete runs reduce.
-/

namespace RagSpec

/-- Python `s.startswith(pre)`. -/
def strStartsWith (s pre : String) : Bool :=
  pre.data.isPrefixOf s.data

/-- Python `s.endswith(suf)`. -/
def strEndsWith (s suf : String) : Bool :=
  suf.data.isSuffixOf s.data

/-- Helper for Python `s.split(sep)` with a one-character separator. -/
def splitOnCharAux (sep : Char) : List Char → List Char → List (List Char)
  | [], acc => [acc.reverse]
  | c :: rest, acc =>
      if c = sep then acc.reverse :: splitOnCharAux sep rest []
      else splitOnCharAux sep rest (c :: acc)

/-- Python `s.split("\n")`. -/
def splitLines (s : String) : List String :=
  (splitOnCharAux '\n' s.data []).map String.mk

/-- Python `s.strip()`. -/
def strTrim (s : String) : String :=
  String.mk (((s.data.dropWhile Char.isWhitespace).reverse.dropWhile
    Char.isWhitespace).reverse)

/-- Python `s.lower()` (ASCII case folding suffices for the patterns the
code checks). -/
def strToLower (s : String) : String :=
  String.mk (s.data.map Char.toLower)

/-- Helper for substring containment on character lists. -/
def listContainsSub (pat : List Char) : List Char → Bool
  | [] => pat.isPrefixOf []
  | c :: rest => pat.isPrefixOf (c :: rest) || listContainsSub pat rest

/-- Python `pat in s` (substring containment). -/
def strContainsSub (s pat : String) : Bool :=
  listContainsSub pat.data s.data

/-- Python `"sep".join(parts)`. -/
def joinSep (sep : String) : List String → String
  | [] => ""
  | [s] => s
  | s :: rest => s ++ sep ++ joinSep sep rest

/-- Constant `CACHE_PATH` from rag_system.py, relative to `BASE_DIR` (the constant
is `os.path.join(BASE_DIR, "fingerprint_cache.json")`; `BASE_DIR` is left
implicit and all paths are names inside it). -/
def CACHE_PATH : String := "fingerprint_cache.json"

/-- Constant `DATA_PATH` from rag_system.py, relative to `BASE_DIR`. -/
def DATA_PATH : String := "data/requirements"

/-- State of the `DATA_PATH` document directory.
`mtime f = some t` means file `f` exists (`os.path.isfile`) with
modification time `t` (timestamps abstracted to integers);
`listing` is `os.listdir(DATA_PATH)`; `loaderOutput f` is what the
langchain loader for `f` would produce: one string per page/segment, or an
error when loading raises. -/
structure DataDir where
  listing : List String
  mtime : String → Option Int
  loaderOutput : String → Except String (List String)

/-- Changing the recorded modification time of one file (e.g. `os.utime`
or rewriting the file). -/
def touch (fs : DataDir) (f : String) (t : Int) : DataDir :=
  { fs with mtime := fun g => if g = f then some t else fs.mtime g }

/-- The effective file list: the argument when given, else the directory
listing restricted to plain files (both `get_selection_fingerprint` and
`load_documents` use this `None` default). -/
def effectiveSelection (fs : DataDir) (files : Option (List String)) : List String :=
  match files with
  | some l => l
  | none => fs.listing.filter (fun f => (fs.mtime f).isSome)

/-- The sorted, deduplicated keys of the fingerprint state dict: the
selection restricted to existing files.  `file_list.sort()` plus Python
dict key semantics plus `json.dumps(..., sort_keys=True)` make the key
sequence the sorted set of existing selected names. -/
def selKeys (fs : DataDir) (l : List String) : List String :=
  ((l.filter (fun f => (fs.mtime f).isSome)).dedup).insertionSort (· ≤ ·)

/-- The `state` dict of `get_selection_fingerprint` in canonical
(serialization) order: `{f: os.path.getmtime(f)}` for each selected
existing file, keys sorted. -/
def selectionState (fs : DataDir) (files : Option (List String)) : List (String × Int) :=
  (selKeys fs (effectiveSelection fs files)).filterMap
    (fun f => (fs.mtime f).map (fun t => (f, t)))

/-- Function `get_selection_fingerprint` (rag_system.py lines 44-66): hashes the
serialized name-to-mtime state.  The digest
(`hashlib.md5(json.dumps(state, sort_keys=True).encode()).hexdigest()`)
is an abstract parameter applied to the canonical state. -/
def get_selection_fingerprint {α : Type} (digest : List (String × Int) → α)
    (fs : DataDir) (files : Option (List String)) : α :=
  digest (selectionState fs files)

/-- A loaded/indexed text segment: a langchain `Document` reduced to the
fields the claims mention (`page_content` and the `source` metadata
entry; `file_type`/`modified_time`/`layer` are dropped). -/
structure Doc where
  page_content : String
  source : String
deriving DecidableEq

/-- The per-file part of `load_documents` (lines 92-130): only `.txt`,
`.md`, `.pdf` and `.docx` files go through a loader; any loader failure
skips the file (`continue`); every other extension falls through all
branches and contributes no segments. -/
def supportedSegments (fs : DataDir) (file : String) : List Doc :=
  if strEndsWith file ".txt" || strEndsWith file ".md" ||
      strEndsWith file ".pdf" || strEndsWith file ".docx" then
    match fs.loaderOutput file with
    | .ok contents => contents.map (fun c => ⟨c, file⟩)
    | .error _ => []
  else []

/-- Function `load_documents` (rag_system.py lines 72-133): restrict the selection
to existing files, run the extension-dispatched loaders, concatenate the
segments (each tagged with its source file). -/
def load_documents (fs : DataDir) (files : Option (List String)) : List Doc :=
  (((effectiveSelection fs files).filter
      (fun f => (fs.mtime f).isSome)).map (supportedSegments fs)).flatten

/-- The persisted cache record: the JSON object
`{"fingerprint": ..., "db_path": ...}` at `CACHE_PATH`.  `none` fields
model missing keys (`dict.get` returning `None`). -/
structure CacheRecord where
  fingerprint : Option String
  db_path : Option String
deriving DecidableEq

/-- State of the cache record file: absent, unparseable (``json.load``
raises), or a parsed record. -/
inductive CacheFile where
  | absent
  | corrupt
  | record (r : CacheRecord)
deriving DecidableEq

/-- Result of constructing a `Chroma` handle at a path and calling
`db.get()`: either the call raises, or it yields the stored segments
(`db.get()['ids']` is empty exactly when the segment list is). -/
inductive LoadResult where
  | fail (msg : String)
  | ok (segs : List Doc)
deriving DecidableEq

/-- State of `BASE_DIR`: the cache record file, the names of existing
directories, the set of directories a concurrent reader holds open
(`shutil.rmtree` on them raises), and the load behaviour of each on-disk
index. -/
structure VectorFS where
  cache : CacheFile
  dirs : List String
  locked : List String
  load : String → LoadResult

/-- A built or loaded vector index: its persist directory and contents. -/
structure VDB where
  path : String
  segs : List Doc
deriving DecidableEq

/-- Filesystem effects of `create_vector_db`, in program order.
`writeFile` is an in-place `open(path, 'w')` write of a cache record;
`renameFile` is an atomic `os.replace`-style rename (expressible here,
but never emitted by the embedded code); `rmtree` is a
`shutil.rmtree` call on a directory. -/
inductive Ev where
  | mkdirs (path : String)
  | buildIndex (path : String) (nChunks : Nat)
  | writeFile (path : String) (r : CacheRecord)
  | renameFile (src dst : String)
  | rmtree (path : String)
deriving DecidableEq

/-- The cleanup predicate of rag_system.py line 300:
`item.startswith("vectordb_") or item == "vectordb"`. -/
def isVectorDbDir (name : String) : Bool :=
  strStartsWith name "vectordb_" || name = "vectordb"

/-- The cache-probe of `create_vector_db` (lines 211-227): the stored
`db_path` when the record parses, its fingerprint equals the requested
one, and the recorded path is truthy and exists on disk; `none`
otherwise (including an unreadable record, whose exception is caught and
logged). -/
def storedHitPath (fs : VectorFS) (fingerprint : Option String) : Option String :=
  match fs.cache with
  | .record r =>
      if r.fingerprint = fingerprint then
        match r.db_path with
        | some p => if p ≠ "" ∧ p ∈ fs.dirs then some p else none
        | none => none
      else none
  | _ => none

/-- A usable cache HIT: the probe succeeds and the index at the recorded
path loads and is non-empty (lines 228-241). -/
def hasValidHit (fs : VectorFS) (fingerprint : Option String) : Bool :=
  match storedHitPath fs fingerprint with
  | some p =>
      match fs.load p with
      | .ok segs => !segs.isEmpty
      | .fail _ => false
  | none => false

/-- The rebuild section of `create_vector_db` (lines 252-310): make a
fresh timestamped directory, index the chunks there (an empty chunk list
still yields an empty index), write the `{fingerprint, db_path}` record
in place when a truthy fingerprint was supplied, then best-effort delete
every other `vectordb*` directory, swallowing deletion failures. -/
def rebuildVectorDb (fs : VectorFS) (timestamp : String) (chunks : List Doc)
    (fingerprint : Option String) : Except String VDB × VectorFS × List Ev :=
  let newPath := "vectordb_" ++ timestamp
  let dirs1 := if newPath ∈ fs.dirs then fs.dirs else fs.dirs ++ [newPath]
  let cacheEvs : CacheFile × List Ev :=
    match fingerprint with
    | some fp =>
        if fp ≠ "" then
          (CacheFile.record ⟨some fp, some newPath⟩,
            [Ev.writeFile CACHE_PATH ⟨some fp, some newPath⟩])
        else (fs.cache, [])
    | none => (fs.cache, [])
  let scanned := dirs1.filter
    (fun d => isVectorDbDir d && decide (d ≠ newPath))
  let dirs2 := dirs1.filter
    (fun d => !(isVectorDbDir d && decide (d ≠ newPath) && decide (d ∉ fs.locked)))
  (Except.ok ⟨newPath, chunks⟩,
    { fs with cache := cacheEvs.1, dirs := dirs2 },
    [Ev.mkdirs newPath, Ev.buildIndex newPath chunks.length] ++ cacheEvs.2
      ++ scanned.map Ev.rmtree)

/-- Line 249-250: at the top of the rebuild section, `chunks is None`
raises (`ValueError`) before any filesystem effect. -/
def rebuildOrSignal (fs : VectorFS) (timestamp : String)
    (chunks : Option (List Doc)) (fingerprint : Option String) :
    Except String VDB × VectorFS × List Ev :=
  match chunks with
  | none =>
      (Except.error "create_vector_db called with chunks=None but no matching cache found.",
        fs, [])
  | some cs => rebuildVectorDb fs timestamp cs fingerprint

/-- Function `create_vector_db` (rag_system.py lines 199-320).  The timestamp used
for the fresh directory name is a parameter; the result is the returned
index (or the raised error message), the updated `BASE_DIR` state, and
the trace of filesystem effects. -/
def create_vector_db (fs : VectorFS) (timestamp : String)
    (chunks : Option (List Doc)) (fingerprint : Option String) :
    Except String VDB × VectorFS × List Ev :=
  match storedHitPath fs fingerprint with
  | some p =>
      match fs.load p with
      | .ok segs =>
          if segs.isEmpty then
            -- empty cached index: force rebuild (line 236-238)
            rebuildOrSignal fs timestamp chunks fingerprint
          else (Except.ok ⟨p, segs⟩, fs, [])
      | .fail msg =>
          -- load/validation failed (lines 242-246)
          match chunks with
          | none =>
              (Except.error
                ("Cache load failed and no chunks provided for re-indexing: " ++ msg),
                fs, [])
          | some cs => rebuildVectorDb fs timestamp cs fingerprint
  | none => rebuildOrSignal fs timestamp chunks fingerprint

/-- Function `generate_multi_queries` (rag_system.py lines 390-422).  `resp` is
the outcome of the `llm.invoke` expansion call; the function itself has
no `try/except`, so a failing call propagates.  On success the response
is split on newlines, entries are stripped, empties dropped, and the
original query appended when absent. -/
def generate_multi_queries (query : String) (resp : Except String String) :
    Except String (List String) :=
  match resp with
  | .error e => .error e
  | .ok content =>
      let queries := ((splitLines content).map strTrim).filter (fun q => q ≠ "")
      .ok (if query ∈ queries then queries else queries ++ [query])

/-- One per-variant `db.similarity_search(q, k=5)` call inside the loop of
`synthesize_requirements_for_query` (lines 455-468): a search error is
printed and that variant contributes nothing. -/
def searchDocs (search : String → Except String (List Doc)) (q : String) : List Doc :=
  match search q with
  | .ok ds => ds
  | .error _ => []

/-- The body of the dedup loop (lines 460-465): append the document and
record `hash(doc.page_content)` unless that hash was already seen.
The accumulator is `(all_relevant_docs, seen_ids)`. -/
def dedupStep (h : String → Int) (acc : List Doc × List Int) (doc : Doc) :
    List Doc × List Int :=
  if h doc.page_content ∈ acc.2 then acc
  else (acc.1 ++ [doc], acc.2 ++ [h doc.page_content])

/-- The multi-query merge of `synthesize_requirements_for_query`
(lines 451-470): per variant in order, retrieve and fold the dedup step.
`h` models Python's `hash` on strings. -/
def mergeRetrieved (h : String → Int) (search : String → Except String (List Doc))
    (qs : List String) : List Doc :=
  (qs.foldl (fun acc q => (searchDocs search q).foldl (dedupStep h) acc) ([], [])).1

/-- The abstracted external collaborators of the RAG phase:
`digest` the fingerprint hash, `ts` the rebuild timestamp, `summarize`
the `summarize_document` LLM call (content, source ↦ summary, doc_type),
`split` the `RecursiveCharacterTextSplitter`, `expand` the multi-query
LLM call, `search` similarity search against an index, `hash` Python's
string hash, `synth` the final synthesis LLM call (query, context ↦
response). -/
structure RagEnv where
  data : DataDir
  digest : List (String × Int) → String
  ts : String
  summarize : String → String → Except String (String × String)
  split : List Doc → List Doc
  expand : String → Except String String
  search : VDB → String → Except String (List Doc)
  hash : String → Int
  synth : String → String → Except String String

/-- Function `synthesize_requirements_for_query` (rag_system.py lines 425-520).
Its top-level `try/except` turns any escaping exception (in particular a
failed expansion call) into an `"Error retrieving relevant context:"`
string; an empty merged result produces the diagnostic no-match string;
otherwise the deduplicated, truncated segments are joined into the
context for the synthesis call. -/
def synthesize_requirements_for_query (env : RagEnv) (db : VDB) (query : String)
    (top_k : Nat) : String :=
  match generate_multi_queries query (env.expand query) with
  | .error e => "Error retrieving relevant context: " ++ e
  | .ok mqs =>
      let relevant := (mergeRetrieved env.hash (env.search db) mqs).take top_k
      if relevant.isEmpty then
        "No relevant documentation found for your query. (Retrieved 0 matches from "
          ++ toString db.segs.length ++ " indexed segments in the Knowledge Hub)"
      else
        match env.synth query (joinSep "\n\n" (relevant.map (fun d => d.page_content))) with
        | .ok c => c
        | .error e => "Error retrieving relevant context: " ++ e

/-- Events of the agent's RAG phase: the ingestion steps plus the
filesystem effects of `create_vector_db`. -/
inductive REv where
  | loadDocs
  | summarize (src : String)
  | splitDocs
  | fsEv (e : Ev)
deriving DecidableEq

/-- First-seen-order deduplication (Python dict-of-lists key order in
`docs_by_source`). -/
def firstDedup (l : List String) : List String :=
  l.foldl (fun acc s => if s ∈ acc then acc else acc ++ [s]) []

/-- Python `"\n\n".join(docs_by_source[src])`: the concatenated page contents of
one source, in load order. -/
def sourceContents (docs : List Doc) (src : String) : String :=
  joinSep "\n\n" ((docs.filter (fun d => d.source == src)).map (fun d => d.page_content))

/-- The summary loop of `TestCaseGenerationAgent.process` (lines 170-181):
one `summarize_document` call per distinct source; a failing call
propagates out of the loop.  Returns the summary Documents and the trace
of attempted summarizations. -/
def summariesFor (env : RagEnv) (docs : List Doc) :
    List String → Except String (List Doc) × List REv
  | [] => (.ok [], [])
  | src :: rest =>
      match env.summarize (sourceContents docs src) src with
      | .error e => (.error e, [.summarize src])
      | .ok st =>
          let more := summariesFor env docs rest
          match more.1 with
          | .error e => (.error e, .summarize src :: more.2)
          | .ok ms => (.ok (Doc.mk st.1 src :: ms), .summarize src :: more.2)

/-- The user-friendly wrapper of the outer exception handler
(requirement_interpreter.py lines 256-266). -/
def friendlyMsg (e : String) : String :=
  let lower := strToLower e
  if strContainsSub lower "readonly database" || strContainsSub lower "code: 1032" then
    "Database Persistence Error: The system encountered a filesystem lock while trying to update the knowledge base. I\x27ve implemented a fallback mechanism, so please try again—it should work on the next attempt."
  else if strContainsSub lower "api_key" || strContainsSub lower "unauthorized" then
    "API Key Error: Please check if your OpenAI API key is correct and has sufficient credits."
  else
    "Knowledge synthesis encountered an issue: " ++ e

/-- The `error_detail` messages for an empty document load
(requirement_interpreter.py lines 145-151). -/
def emptyLoadDetail (selected : Option (List String)) : String :=
  match selected with
  | some [] =>
      "No documents selected in the Knowledge Hub. Please select at least one document to provide context."
  | some l =>
      "None of the selected documents could be loaded: " ++ toString l
  | none =>
      "No documents found in Knowledge Hub directory (" ++ DATA_PATH ++ ")"

/-- The fingerprint recorded in the persisted cache file, as the fast-path
check of `process` reads it (lines 132-139): `None` when the file is
absent, unreadable, or lacks the key. -/
def cachedFingerprint (vfs : VectorFS) : Option String :=
  match vfs.cache with
  | .record r => r.fingerprint
  | _ => none

/-- The ingestion path of `process` (lines 141-198): load, summarize per
source, split, index the raw chunks plus summaries, then retrieve; an
empty load yields the labelled `"Unable to retrieve documentation."`
context instead. -/
def ingestAndRetrieve (env : RagEnv) (vfs : VectorFS)
    (selected : Option (List String)) (query : String) (fp : String) :
    String × VectorFS × List REv :=
  let docs := load_documents env.data selected
  if docs.isEmpty then
    ("Unable to retrieve documentation. " ++ emptyLoadDetail selected, vfs, [.loadDocs])
  else
    let sums := summariesFor env docs (firstDedup (docs.map (fun d => d.source)))
    match sums.1 with
    | .error e =>
        -- a failed summarization propagates to the outer handler (line 250)
        ("Unable to retrieve documentation. " ++ friendlyMsg e, vfs,
          .loadDocs :: sums.2)
    | .ok summaryDocs =>
        let allChunks := env.split docs ++ summaryDocs
        if allChunks.isEmpty then
          ("No specific project documentation found. (Processing resulted in 0 segments)",
            vfs, .loadDocs :: sums.2 ++ [.splitDocs])
        else
          match create_vector_db vfs env.ts (some allChunks) (some fp) with
          | (.ok db, vfs1, evs) =>
              (synthesize_requirements_for_query env db query 20, vfs1,
                .loadDocs :: sums.2 ++ [.splitDocs] ++ evs.map .fsEv)
          | (.error e, vfs1, evs) =>
              ("Unable to retrieve documentation. " ++ friendlyMsg e, vfs1,
                .loadDocs :: sums.2 ++ [.splitDocs] ++ evs.map .fsEv)

/-- The fallback re-ingestion inside the cache-hit path (lines 205-232):
repeat loading and indexing; when nothing loads, re-raise the original
cache error (caught by the outer handler). -/
def cacheFallback (env : RagEnv) (vfs : VectorFS)
    (selected : Option (List String)) (query : String) (fp : String)
    (cacheErr : String) : String × VectorFS × List REv :=
  let docs := load_documents env.data selected
  if docs.isEmpty then
    ("Unable to retrieve documentation. " ++ friendlyMsg cacheErr, vfs, [.loadDocs])
  else
    let sums := summariesFor env docs (firstDedup (docs.map (fun d => d.source)))
    match sums.1 with
    | .error e =>
        ("Unable to retrieve documentation. " ++ friendlyMsg e, vfs,
          .loadDocs :: sums.2)
    | .ok summaryDocs =>
        let allChunks := env.split docs ++ summaryDocs
        match create_vector_db vfs env.ts (some allChunks) (some fp) with
        | (.ok db, vfs1, evs) =>
            (synthesize_requirements_for_query env db query 20, vfs1,
              .loadDocs :: sums.2 ++ [.splitDocs] ++ evs.map .fsEv)
        | (.error e, vfs1, evs) =>
            ("Unable to retrieve documentation. " ++ friendlyMsg e, vfs1,
              .loadDocs :: sums.2 ++ [.splitDocs] ++ evs.map .fsEv)

/-- The RAG phase of `TestCaseGenerationAgent.process`
(requirement_interpreter.py lines 110-268): compute the selection
fingerprint, take the cache-hit path when the persisted record's
fingerprint matches, otherwise ingest; every exception is caught by the
outer handler, so the phase always returns a product-context string.
Results: the `product_context`, the updated `BASE_DIR` state, and the
event trace. -/
def processRag (env : RagEnv) (vfs : VectorFS) (selected : Option (List String))
    (query : String) : String × VectorFS × List REv :=
  let fp := get_selection_fingerprint env.digest env.data selected
  if cachedFingerprint vfs = some fp then
    match create_vector_db vfs env.ts none (some fp) with
    | (.ok db, vfs1, evs) =>
        (synthesize_requirements_for_query env db query 20, vfs1, evs.map .fsEv)
    | (.error e, vfs1, evs) =>
        let fb := cacheFallback env vfs1 selected query fp e
        (fb.1, fb.2.1, evs.map .fsEv ++ fb.2.2)
  else
    ingestAndRetrieve env vfs selected query fp

/-! Concrete states used by witnesses and counterexamples. -/

/-- An empty document directory. -/
def dataEmpty : DataDir := ⟨[], fun _ => none, fun _ => .error "no loader"⟩

/-- A document directory with two text files. -/
def dataTwo : DataDir :=
  ⟨["a.txt", "b.txt"],
    fun f => if f = "a.txt" then some 100 else if f = "b.txt" then some 200 else none,
    fun f => .ok ["content of " ++ f]⟩

/-- A document directory with a single non-loadable (`.json`) file. -/
def dataJson : DataDir :=
  ⟨["cfg.json"], fun f => if f = "cfg.json" then some 7 else none,
    fun _ => .ok ["ignored"]⟩

/-- One indexed segment. -/
def docSeg : Doc := ⟨"SEG", "a.txt"⟩

/-- Index loader that succeeds only at `vectordb_x`. -/
def loadOnlyX : String → LoadResult :=
  fun p => if p = "vectordb_x" then .ok [docSeg] else .fail "missing"

/-- State of `BASE_DIR` with a valid cache record for fingerprint `f`
pointing at a loadable, non-empty index. -/
def vfsHit : VectorFS :=
  ⟨.record ⟨some "f", some "vectordb_x"⟩, ["vectordb_x"], [], loadOnlyX⟩

/-- State of `BASE_DIR` with no cache record and no directories. -/
def vfsAbsent : VectorFS := ⟨.absent, [], [], fun _ => .fail "missing"⟩

/-- State of `BASE_DIR` with stale index directories, one held by a
concurrent reader. -/
def vfsStale : VectorFS :=
  ⟨.absent, ["vectordb", "vectordb_old", "data"], ["vectordb_old"], fun _ => .fail "missing"⟩

/-- State of `BASE_DIR` whose cache record points at an existing
`vectordb_old` directory. -/
def vfsOldRecord : VectorFS :=
  ⟨.record ⟨some "f", some "vectordb_old"⟩, ["vectordb_old"], [], fun _ => .fail "missing"⟩

/-- Environment whose digest is constantly `"f"`, with deterministic
stub collaborators. -/
def envHit : RagEnv :=
  { data := dataEmpty
    digest := fun _ => "f"
    ts := "t"
    summarize := fun _ _ => .error "no llm"
    split := fun l => l
    expand := fun _ => .ok "v1"
    search := fun _ _ => .ok [docSeg]
    hash := fun _ => 0
    synth := fun _ _ => .ok "SYNTHOUT" }

/-- Environment whose expansion LLM call always fails. -/
def envErr : RagEnv := { envHit with expand := fun _ => .error "boom" }

/-- A loaded index with one segment. -/
def dbOne : VDB := ⟨"vectordb_x", [docSeg]⟩

/-! Fingerprint lemmas. -/

theorem effectiveSelection_some (fs : DataDir) (l : List String) :
    effectiveSelection fs (some l) = l := rfl

theorem mem_selKeys {fs : DataDir} {l : List String} {f : String} :
    f ∈ selKeys fs l ↔ f ∈ l ∧ (fs.mtime f).isSome := by
  unfold selKeys
  rw [(List.perm_insertionSort _ _).mem_iff, List.mem_dedup, List.mem_filter]

theorem selKeys_perm_eq {fs : DataDir} {l₁ l₂ : List String} (h : l₁.Perm l₂) :
    selKeys fs l₁ = selKeys fs l₂ := by
  unfold selKeys
  refine List.eq_of_perm_of_sorted ?_ (List.sorted_insertionSort _ _)
    (List.sorted_insertionSort _ _)
  exact (List.perm_insertionSort _ _).trans
    (((h.filter _).dedup).trans (List.perm_insertionSort _ _).symm)

theorem mem_selectionState {fs : DataDir} {sel : Option (List String)}
    {g : String} {v : Int} :
    (g, v) ∈ selectionState fs sel ↔
      g ∈ selKeys fs (effectiveSelection fs sel) ∧ fs.mtime g = some v := by
  unfold selectionState
  rw [List.mem_filterMap]
  constructor
  · rintro ⟨a, ha, hfa⟩
    cases hm : fs.mtime a with
    | none => rw [hm] at hfa; simp at hfa
    | some t =>
        rw [hm] at hfa
        simp only [Option.map_some', Option.some_inj, Prod.mk.injEq] at hfa
        obtain ⟨rfl, rfl⟩ := hfa
        exact ⟨ha, hm⟩
  · rintro ⟨hg, hm⟩
    exact ⟨g, hg, by rw [hm]; rfl⟩

theorem selKeys_touch {fs : DataDir} {l : List String} {f : String} {t t' : Int}
    (hf : fs.mtime f = some t) :
    selKeys (touch fs f t') l = selKeys fs l := by
  unfold selKeys
  congr 2
  apply List.filter_congr
  intro x _
  by_cases hxf : x = f
  · subst hxf
    simp [touch, hf]
  · simp [touch, hxf]

theorem touch_mtime_self (fs : DataDir) (f : String) (t : Int) :
    (touch fs f t).mtime f = some t := by simp [touch]

theorem touch_state_ne {fs : DataDir} {l : List String} {f : String} {t t' : Int}
    (hf : fs.mtime f = some t) (hmem : f ∈ l) (hne : t' ≠ t) :
    selectionState (touch fs f t') (some l) ≠ selectionState fs (some l) := by
  intro heq
  have h1 : (f, t') ∈ selectionState (touch fs f t') (some l) := by
    rw [mem_selectionState]
    refine ⟨?_, touch_mtime_self fs f t'⟩
    rw [effectiveSelection_some, selKeys_touch hf, mem_selKeys]
    exact ⟨hmem, by rw [hf]; rfl⟩
  rw [heq, mem_selectionState] at h1
  rw [hf] at h1
  exact hne (Option.some_inj.mp h1.2.symm)

theorem insert_state_ne {fs : DataDir} {l : List String} {f : String} {t : Int}
    (hf : fs.mtime f = some t) (hnotin : f ∉ l) :
    selectionState fs (some (f :: l)) ≠ selectionState fs (some l) := by
  intro heq
  have h1 : (f, t) ∈ selectionState fs (some (f :: l)) := by
    rw [mem_selectionState, effectiveSelection_some, mem_selKeys]
    exact ⟨⟨List.mem_cons_self f l, by rw [hf]; rfl⟩, hf⟩
  rw [heq, mem_selectionState, effectiveSelection_some, mem_selKeys] at h1
  exact hnotin h1.1.1

/-- C3 — Fingerprint determinism and order-independence: with a fixed
filesystem state, equal selections give equal digests (the embedded
function is pure, so determinism is definitional); any permutation of the
selection yields the same digest; and, for a collision-free digest
(injectivity models collision-freeness of md5 over the canonical JSON
serialization), changing the modification time of any selected existing
file changes the digest. -/
theorem c3_fingerprint_determinism {α : Type} (digest : List (String × Int) → α)
    (fs : DataDir) (l l' : List String) (f : String) (t t' : Int)
    (hperm : l.Perm l') (hmem : f ∈ l) (hf : fs.mtime f = some t)
    (hne : t' ≠ t) (hinj : Function.Injective digest) :
    get_selection_fingerprint digest fs (some l) =
        get_selection_fingerprint digest fs (some l)
      ∧ get_selection_fingerprint digest fs (some l) =
        get_selection_fingerprint digest fs (some l')
      ∧ get_selection_fingerprint digest (touch fs f t') (some l) ≠
        get_selection_fingerprint digest fs (some l) := by
  refine ⟨rfl, ?_, ?_⟩
  · unfold get_selection_fingerprint selectionState
    rw [effectiveSelection_some, effectiveSelection_some, selKeys_perm_eq hperm]
  · exact hinj.ne (touch_state_ne hf hmem hne)

/-- Witness for C3 at the selection from the spec:
fingerprint(["b.txt","a.txt"]) with files of mtimes 100 and 200. -/
theorem c3_fingerprint_determinism_witness :
    get_selection_fingerprint id dataTwo (some ["b.txt", "a.txt"]) =
        get_selection_fingerprint id dataTwo (some ["b.txt", "a.txt"])
      ∧ get_selection_fingerprint id dataTwo (some ["b.txt", "a.txt"]) =
        get_selection_fingerprint id dataTwo (some ["a.txt", "b.txt"])
      ∧ get_selection_fingerprint id (touch dataTwo "a.txt" 101) (some ["b.txt", "a.txt"]) ≠
        get_selection_fingerprint id dataTwo (some ["b.txt", "a.txt"]) :=
  c3_fingerprint_determinism id dataTwo ["b.txt", "a.txt"] ["a.txt", "b.txt"]
    "a.txt" 100 101 (by decide) (by decide) rfl (by decide) (fun _ _ hh => hh)

/-- Supported-extension check used by `load_documents`. -/
theorem supportedSegments_unsupported {fs : DataDir} {f : String}
    (hext : (strEndsWith f ".txt" || strEndsWith f ".md" ||
      strEndsWith f ".pdf" || strEndsWith f ".docx") = false) :
    supportedSegments fs f = [] := by
  unfold supportedSegments
  rw [hext]
  rfl

theorem load_documents_cons_unsupported {fs : DataDir} {l : List String} {f : String}
    (hext : (strEndsWith f ".txt" || strEndsWith f ".md" ||
      strEndsWith f ".pdf" || strEndsWith f ".docx") = false) :
    load_documents fs (some (f :: l)) = load_documents fs (some l) := by
  unfold load_documents
  rw [effectiveSelection_some, effectiveSelection_some, List.filter_cons]
  split
  · rw [List.map_cons, List.flatten_cons, supportedSegments_unsupported hext]
    rfl
  · rfl

/-- C10 — Implicit: fingerprint sensitivity exceeds loader coverage.  For
a selected existing file whose name matches none of the four loader
extensions, adding the file to the selection changes the fingerprint, as
does touching its modification time, yet `load_documents` produces
exactly the same segments with or without it (the file contributes no
segments). -/
theorem c10_fingerprint_vs_loader {α : Type} (digest : List (String × Int) → α)
    (fs : DataDir) (files : List String) (f : String) (t t' : Int)
    (hext : (strEndsWith f ".txt" || strEndsWith f ".md" ||
      strEndsWith f ".pdf" || strEndsWith f ".docx") = false)
    (hf : fs.mtime f = some t) (hnotin : f ∉ files) (hne : t' ≠ t)
    (hinj : Function.Injective digest) :
    get_selection_fingerprint digest fs (some (f :: files)) ≠
        get_selection_fingerprint digest fs (some files)
      ∧ get_selection_fingerprint digest (touch fs f t') (some (f :: files)) ≠
        get_selection_fingerprint digest fs (some (f :: files))
      ∧ load_documents fs (some (f :: files)) = load_documents fs (some files)
      ∧ supportedSegments fs f = [] := by
  refine ⟨hinj.ne (insert_state_ne hf hnotin), ?_, ?_, ?_⟩
  · exact hinj.ne (touch_state_ne hf (List.mem_cons_self f files) hne)
  · exact load_documents_cons_unsupported hext
  · exact supportedSegments_unsupported hext

/-- Witness for C10 with a selected `.json` file. -/
theorem c10_fingerprint_vs_loader_witness :
    get_selection_fingerprint id dataJson (some ["cfg.json"]) ≠
        get_selection_fingerprint id dataJson (some [])
      ∧ get_selection_fingerprint id (touch dataJson "cfg.json" 8) (some ["cfg.json"]) ≠
        get_selection_fingerprint id dataJson (some ["cfg.json"])
      ∧ load_documents dataJson (some ["cfg.json"]) = load_documents dataJson (some [])
      ∧ supportedSegments dataJson "cfg.json" = [] :=
  c10_fingerprint_vs_loader id dataJson [] "cfg.json" 7 8 (by decide) rfl
    (by decide) (by decide) (fun _ _ hh => hh)

/-! Retrieval-aggregation lemmas. -/

theorem foldl_dedupStep_spec (h : String → Int) :
    ∀ (l ds : List Doc) (seen : List Int),
      seen = ds.map (fun d => h d.page_content) →
      ((l.foldl (dedupStep h) (ds, seen)).2 =
          (l.foldl (dedupStep h) (ds, seen)).1.map (fun d => h d.page_content))
      ∧ (∃ extra, (l.foldl (dedupStep h) (ds, seen)).1 = ds ++ extra
          ∧ extra.Sublist l)
      ∧ (seen.Nodup → (l.foldl (dedupStep h) (ds, seen)).2.Nodup)
      ∧ (∀ x ∈ seen, x ∈ (l.foldl (dedupStep h) (ds, seen)).2)
      ∧ (∀ d ∈ l, h d.page_content ∈ (l.foldl (dedupStep h) (ds, seen)).2) := by
  intro l
  induction l with
  | nil =>
      intro ds seen hseen
      exact ⟨hseen, ⟨[], by simp, List.Sublist.refl []⟩, fun hn => hn,
        fun x hx => hx, fun d hd => absurd hd (List.not_mem_nil d)⟩
  | cons d rest ih =>
      intro ds seen hseen
      by_cases hmem : h d.page_content ∈ seen
      · have hstep : dedupStep h (ds, seen) d = (ds, seen) := by
          unfold dedupStep; rw [if_pos hmem]
        rw [List.foldl_cons, hstep]
        obtain ⟨h1, ⟨extra, he, hsub⟩, h3, h4, h5⟩ := ih ds seen hseen
        exact ⟨h1, ⟨extra, he, hsub.cons d⟩, h3, h4, by
          intro d' hd'
          rcases List.mem_cons.mp hd' with rfl | hd'
          · exact h4 _ hmem
          · exact h5 d' hd'⟩
      · have hstep : dedupStep h (ds, seen) d =
            (ds ++ [d], seen ++ [h d.page_content]) := by
          unfold dedupStep; rw [if_neg hmem]
        rw [List.foldl_cons, hstep]
        have hseen' : seen ++ [h d.page_content] =
            (ds ++ [d]).map (fun d => h d.page_content) := by
          rw [List.map_append, hseen]; rfl
        obtain ⟨h1, ⟨extra, he, hsub⟩, h3, h4, h5⟩ := ih (ds ++ [d]) _ hseen'
        refine ⟨h1, ⟨d :: extra, by rw [he]; simp, hsub.cons₂ d⟩,
          ?_, ?_, ?_⟩
        · intro hn
          apply h3
          rw [List.nodup_append]
          exact ⟨hn, List.nodup_singleton _,
            fun x hx hx' => hmem (by rwa [List.mem_singleton.mp hx'] at hx)⟩
        · intro x hx
          exact h4 x (List.mem_append_left _ hx)
        · intro d' hd'
          rcases List.mem_cons.mp hd' with rfl | hd'
          · exact h4 _ (List.mem_append_right _ (List.mem_singleton_self _))
          · exact h5 d' hd'

theorem mergeRetrieved_foldl (h : String → Int)
    (search : String → Except String (List Doc)) (qs : List String) :
    ∀ acc, qs.foldl (fun acc q => (searchDocs search q).foldl (dedupStep h) acc) acc
      = ((qs.map (searchDocs search)).flatten).foldl (dedupStep h) acc := by
  induction qs with
  | nil => intro acc; rfl
  | cons q rest ih =>
      intro acc
      rw [List.foldl_cons, List.map_cons, List.flatten_cons, List.foldl_append, ih]

/-- C4 — Retrieval aggregation: the merged list assembled inside
`synthesize_requirements_for_query` has pairwise-distinct segment texts
(for identical text the hash key coincides regardless of source, so
such entries collapse); it is a sublist of the concatenation of the
per-variant results in first-seen order (no re-sorting by score); every
retrieved segment's content key is represented; and the truncation keeps
at most `top_k` entries. -/
theorem c4_retrieval_aggregation (h : String → Int)
    (search : String → Except String (List Doc)) (qs : List String) (top_k : Nat) :
    ((mergeRetrieved h search qs).map (fun d => d.page_content)).Nodup
    ∧ (mergeRetrieved h search qs).Sublist ((qs.map (searchDocs search)).flatten)
    ∧ (∀ d ∈ (qs.map (searchDocs search)).flatten,
        h d.page_content ∈ (mergeRetrieved h search qs).map (fun d => h d.page_content))
    ∧ ((mergeRetrieved h search qs).take top_k).length ≤ top_k := by
  have hdef : mergeRetrieved h search qs =
      (((qs.map (searchDocs search)).flatten).foldl (dedupStep h) ([], [])).1 := by
    unfold mergeRetrieved
    rw [mergeRetrieved_foldl]
  obtain ⟨h1, ⟨extra, he, hsub⟩, h3, _, h5⟩ :=
    foldl_dedupStep_spec h ((qs.map (searchDocs search)).flatten) [] [] rfl
  refine ⟨?_, ?_, ?_, List.length_take_le top_k _⟩
  · have hkeys : ((mergeRetrieved h search qs).map
        (fun d => h d.page_content)).Nodup := by
      rw [hdef, ← h1]
      exact h3 List.nodup_nil
    have : (((mergeRetrieved h search qs).map (fun d => d.page_content)).map h).Nodup := by
      rw [List.map_map]
      exact hkeys
    exact this.of_map
  · rw [hdef, he]
    simpa using hsub
  · intro d hd
    rw [hdef, ← h1]
    exact h5 d hd

/-- Witness for C4 on a concrete two-variant search that returns the
same segment for both variants. -/
theorem c4_retrieval_aggregation_witness :
    ((mergeRetrieved (fun _ => 0) (fun _ => Except.ok [docSeg]) ["v1", "q"]).map
        (fun d => d.page_content)).Nodup
    ∧ ((mergeRetrieved (fun _ => 0) (fun _ => Except.ok [docSeg]) ["v1", "q"]).take
        1).length ≤ 1 :=
  ⟨(c4_retrieval_aggregation (fun _ => 0) (fun _ => Except.ok [docSeg]) ["v1", "q"] 1).1,
    (c4_retrieval_aggregation (fun _ => 0) (fun _ => Except.ok [docSeg]) ["v1", "q"] 1).2.2.2⟩

/-! Cache-manager lemmas and claims. -/

theorem load_documents_nil (fs : DataDir) : load_documents fs (some []) = [] := rfl

theorem fingerprint_nil {α : Type} (digest : List (String × Int) → α) (fs : DataDir) :
    get_selection_fingerprint digest fs (some []) = digest [] := rfl

/-- C1 — Cache HIT semantics: when the persisted record's fingerprint is
the requested one, the recorded path exists, and the index there loads
non-empty, `create_vector_db` returns exactly that cached index with no
filesystem effect and no state change (for any `chunks` argument, in
particular `None`); and the agent's `process` fast path for the matching
selection performs no document loading, splitting, summarization or
indexing (its event trace is empty) and hands the cached index to
retrieval. -/
theorem c1_cache_hit_returns_cached (env : RagEnv) (vfs : VectorFS)
    (sel : Option (List String)) (query ts : String) (p : String)
    (segs : List Doc) (chunks : Option (List Doc))
    (hcache : vfs.cache =
      .record ⟨some (get_selection_fingerprint env.digest env.data sel), some p⟩)
    (hp : p ≠ "") (hdir : p ∈ vfs.dirs)
    (hload : vfs.load p = .ok segs) (hne : segs.isEmpty = false) :
    create_vector_db vfs ts chunks
        (some (get_selection_fingerprint env.digest env.data sel)) =
      (Except.ok ⟨p, segs⟩, vfs, [])
    ∧ processRag env vfs sel query =
      (synthesize_requirements_for_query env ⟨p, segs⟩ query 20, vfs, []) := by
  have hpath : storedHitPath vfs
      (some (get_selection_fingerprint env.digest env.data sel)) = some p := by
    unfold storedHitPath
    rw [hcache]
    simp [hp, hdir]
  have hcreate : ∀ (ch : Option (List Doc)) (ts' : String),
      create_vector_db vfs ts' ch
          (some (get_selection_fingerprint env.digest env.data sel)) =
        (Except.ok ⟨p, segs⟩, vfs, []) := by
    intro ch ts'
    unfold create_vector_db
    rw [hpath]
    simp [hload, hne]
  refine ⟨hcreate chunks ts, ?_⟩
  have hcf : cachedFingerprint vfs =
      some (get_selection_fingerprint env.digest env.data sel) := by
    unfold cachedFingerprint
    rw [hcache]
  simp only [processRag, hcf, if_pos, hcreate none env.ts, List.map_nil]

/-- Witness for C1: a matching record pointing at a loadable one-segment
index; both the direct resolver call and the process fast path reuse it. -/
theorem c1_cache_hit_returns_cached_witness :
    create_vector_db vfsHit "t" none
        (some (get_selection_fingerprint envHit.digest envHit.data (some []))) =
      (Except.ok ⟨"vectordb_x", [docSeg]⟩, vfsHit, [])
    ∧ processRag envHit vfsHit (some []) "q" =
      (synthesize_requirements_for_query envHit ⟨"vectordb_x", [docSeg]⟩ "q" 20,
        vfsHit, []) :=
  c1_cache_hit_returns_cached envHit vfsHit (some []) "q" "t" "vectordb_x"
    [docSeg] none rfl (by decide) (by decide) rfl rfl

/-- C2 — Must-re-ingest signaling: with `chunks = None` and no valid HIT
(no record, different fingerprint, missing path, failing load, or empty
cached index — all summarized by `hasValidHit = false`),
`create_vector_db` returns an error instead of building or returning an
empty index, and leaves the whole `BASE_DIR` state — in particular the
persisted cache record — unchanged, with no filesystem effect. -/
theorem c2_must_reingest (fs : VectorFS) (ts : String) (fp : Option String)
    (hmiss : hasValidHit fs fp = false) :
    (∃ msg, (create_vector_db fs ts none fp).1 = Except.error msg)
    ∧ (create_vector_db fs ts none fp).2.1 = fs
    ∧ (create_vector_db fs ts none fp).2.2 = [] := by
  unfold hasValidHit at hmiss
  unfold create_vector_db
  cases h : storedHitPath fs fp with
  | none =>
      simp [h, rebuildOrSignal]
  | some p =>
      cases hl : fs.load p with
      | fail msg =>
          simp [h, hl]
      | ok segs =>
          simp [h, hl] at hmiss
          simp [h, hl, hmiss, rebuildOrSignal]

/-- Witness for C2: no cache record at all. -/
theorem c2_must_reingest_witness :
    (create_vector_db vfsAbsent "t" none (some "f")).2.1 = vfsAbsent
    ∧ (create_vector_db vfsAbsent "t" none (some "f")).2.2 = [] :=
  ⟨(c2_must_reingest vfsAbsent "t" (some "f") rfl).2.1,
    (c2_must_reingest vfsAbsent "t" (some "f") rfl).2.2⟩

/-- Helper: on success the expanded query list contains the original
query verbatim. -/
theorem generate_multi_queries_mem (query content : String) (qs : List String)
    (hq : generate_multi_queries query (Except.ok content) = Except.ok qs) :
    query ∈ qs := by
  unfold generate_multi_queries at hq
  simp only [Except.ok.injEq] at hq
  subst hq
  by_cases hmem : query ∈ ((splitLines content).map strTrim).filter (fun q => q ≠ "")
  · rw [if_pos hmem]
    exact hmem
  · rw [if_neg hmem]
    exact List.mem_append_right _ (List.mem_singleton_self _)

/-- C5 counterexample — the claim says a failed expansion call degrades
to returning just the original query; on the code a failing
`llm.invoke` propagates out of `generate_multi_queries` unchanged. -/
theorem c5_no_fallback_counterexample :
    generate_multi_queries "q" (Except.error "boom") ≠ Except.ok ["q"] := by
  intro h
  exact Except.noConfusion h

/-- C5 amended — the returned list always contains the original query
verbatim (appended when absent), but a failure of the LLM expansion call
propagates out of `generate_multi_queries`; it is caught only by the
top-level handler of `synthesize_requirements_for_query`, which returns
an error-message context instead of retrieving with the original query. -/
theorem c5_expansion_amended (query e : String) (env : RagEnv) (db : VDB)
    (top_k : Nat) (hexp : env.expand query = Except.error e) :
    (∀ content qs, generate_multi_queries query (Except.ok content) = Except.ok qs →
        query ∈ qs)
    ∧ generate_multi_queries query (Except.error e) = Except.error e
    ∧ synthesize_requirements_for_query env db query top_k =
        "Error retrieving relevant context: " ++ e := by
  refine ⟨fun content qs hq => generate_multi_queries_mem query content qs hq, rfl, ?_⟩
  unfold synthesize_requirements_for_query
  rw [hexp]
  rfl

/-- Witness for C5 (amended): a concrete failing expansion and a concrete
successful one. -/
theorem c5_expansion_amended_witness :
    generate_multi_queries "q" (Except.error "boom") = Except.error "boom"
    ∧ "q" ∈ ["v1", "q"]
    ∧ synthesize_requirements_for_query envErr dbOne "q" 10 =
        "Error retrieving relevant context: " ++ "boom" :=
  ⟨(c5_expansion_amended "q" "boom" envErr dbOne 10 rfl).2.1,
    (c5_expansion_amended "q" "boom" envErr dbOne 10 rfl).1 "v1" ["v1", "q"] rfl,
    (c5_expansion_amended "q" "boom" envErr dbOne 10 rfl).2.2⟩

/-- C6 counterexample — a concrete rebuild whose full effect trace shows
the cache record being written by an in-place `open(CACHE_PATH, 'w')`
write (`Ev.writeFile`), with no temporary file and no rename, refuting
the claimed write-to-temp-then-atomic-rename discipline. -/
theorem c6_inplace_write_counterexample :
    (create_vector_db vfsAbsent "t" (some [docSeg]) (some "f")).2.2 =
      [Ev.mkdirs "vectordb_t", Ev.buildIndex "vectordb_t" 1,
        Ev.writeFile CACHE_PATH ⟨some "f", some "vectordb_t"⟩] := by decide

/-- C6 amended — every execution of `create_vector_db` performs no rename
at all, and every file write it performs is the single in-place write of
the complete record `{fingerprint, db_path}` to the fixed `CACHE_PATH`
(so the swap is not atomic, but no other file is ever written, and the
record is written only when a non-empty fingerprint was supplied). -/
theorem c6_inplace_write_amended (fs : VectorFS) (ts : String)
    (chunks : Option (List Doc)) (fp : Option String) (e : Ev)
    (he : e ∈ (create_vector_db fs ts chunks fp).2.2) :
    (∀ s d, e ≠ Ev.renameFile s d)
    ∧ (∀ q r, e = Ev.writeFile q r →
        q = CACHE_PATH ∧ ∃ f, fp = some f ∧ r = ⟨some f, some ("vectordb_" ++ ts)⟩) := by
  have hrebuild : ∀ cs, e ∈ (rebuildVectorDb fs ts cs fp).2.2 →
      (∀ s d, e ≠ Ev.renameFile s d)
      ∧ (∀ q r, e = Ev.writeFile q r →
          q = CACHE_PATH ∧ ∃ f, fp = some f ∧ r = ⟨some f, some ("vectordb_" ++ ts)⟩) := by
    intro cs hmem
    unfold rebuildVectorDb at hmem
    simp only [List.cons_append, List.nil_append, List.mem_cons, List.mem_append,
      List.mem_map] at hmem
    rcases hmem with rfl | rfl | hcache | ⟨d, _, rfl⟩
    · exact ⟨fun s d h => Ev.noConfusion h, fun q r h => Ev.noConfusion h⟩
    · exact ⟨fun s d h => Ev.noConfusion h, fun q r h => Ev.noConfusion h⟩
    · cases fp with
      | none => simp at hcache
      | some f =>
          dsimp only at hcache
          by_cases hf : f ≠ ""
          · rw [if_pos hf] at hcache
            simp only [List.mem_singleton] at hcache
            subst hcache
            exact ⟨fun s d h => Ev.noConfusion h,
              fun q r h => by
                cases h
                exact ⟨rfl, f, rfl, rfl⟩⟩
          · rw [if_neg hf] at hcache
            simp at hcache
    · exact ⟨fun s d h => Ev.noConfusion h, fun q r h => Ev.noConfusion h⟩
  unfold create_vector_db at he
  cases h : storedHitPath fs fp with
  | none =>
      rw [h] at he
      dsimp only at he
      unfold rebuildOrSignal at he
      cases chunks with
      | none => simp at he
      | some cs => exact hrebuild cs he
  | some p =>
      rw [h] at he
      dsimp only at he
      cases hl : fs.load p with
      | fail msg =>
          rw [hl] at he
          dsimp only at he
          cases chunks with
          | none => simp at he
          | some cs => exact hrebuild cs he
      | ok segs =>
          rw [hl] at he
          dsimp only at he
          by_cases hs : segs.isEmpty = true
          · rw [if_pos hs] at he
            unfold rebuildOrSignal at he
            cases chunks with
            | none => simp at he
            | some cs => exact hrebuild cs he
          · rw [if_neg hs] at he
            simp at he

/-- Witness for C6 (amended) at the counterexample trace: the recorded
write event is the in-place cache write, not a rename. -/
theorem c6_inplace_write_amended_witness :
    Ev.writeFile CACHE_PATH ⟨some "f", some "vectordb_t"⟩ ≠ Ev.renameFile "x" "y" :=
  (c6_inplace_write_amended vfsAbsent "t" (some [docSeg]) (some "f")
    (Ev.writeFile CACHE_PATH ⟨some "f", some "vectordb_t"⟩) (by decide)).1 "x" "y"

/-- Without a valid HIT, a call with chunks runs the rebuild section. -/
theorem create_vector_db_rebuild (fs : VectorFS) (ts : String) (cs : List Doc)
    (fp : Option String) (hmiss : hasValidHit fs fp = false) :
    create_vector_db fs ts (some cs) fp = rebuildVectorDb fs ts cs fp := by
  unfold hasValidHit at hmiss
  unfold create_vector_db rebuildOrSignal
  cases h : storedHitPath fs fp with
  | none => simp [h]
  | some p =>
      cases hl : fs.load p with
      | fail msg => simp [h, hl]
      | ok segs =>
          simp [h, hl] at hmiss
          simp [h, hl, hmiss]

/-- C7 — Bounded on-disk growth via best-effort cleanup: whenever the
rebuild path runs (chunks supplied, no valid HIT), the call succeeds and
returns the freshly built index regardless of locked directories; a
`shutil.rmtree` is attempted on every other `vectordb*` directory; every
such directory not held by a concurrent reader is gone afterwards; every
surviving `vectordb*` directory is the new one or a locked one (so with
no locks exactly one index directory remains); and when a non-empty
fingerprint was supplied the persisted record references exactly the new
directory. -/
theorem c7_bounded_growth (fs : VectorFS) (ts : String) (cs : List Doc)
    (fp : Option String) (hmiss : hasValidHit fs fp = false) :
    (create_vector_db fs ts (some cs) fp).1 = Except.ok ⟨"vectordb_" ++ ts, cs⟩
    ∧ (∀ d ∈ fs.dirs, isVectorDbDir d = true → d ≠ "vectordb_" ++ ts →
        Ev.rmtree d ∈ (create_vector_db fs ts (some cs) fp).2.2)
    ∧ (∀ d ∈ fs.dirs, isVectorDbDir d = true → d ≠ "vectordb_" ++ ts →
        d ∉ fs.locked → d ∉ (create_vector_db fs ts (some cs) fp).2.1.dirs)
    ∧ (∀ d ∈ (create_vector_db fs ts (some cs) fp).2.1.dirs,
        isVectorDbDir d = true → d = "vectordb_" ++ ts ∨ d ∈ fs.locked)
    ∧ (∀ f, fp = some f → f ≠ "" →
        (create_vector_db fs ts (some cs) fp).2.1.cache =
          CacheFile.record ⟨some f, some ("vectordb_" ++ ts)⟩) := by
  rw [create_vector_db_rebuild fs ts cs fp hmiss]
  unfold rebuildVectorDb
  refine ⟨rfl, ?_, ?_, ?_, ?_⟩
  · intro d hd hvec hne
    simp only [List.cons_append, List.nil_append, List.mem_cons, List.mem_append,
      List.mem_map]
    right; right; right
    refine ⟨d, ?_, rfl⟩
    rw [List.mem_filter]
    constructor
    · split
      · exact hd
      · exact List.mem_append_left _ hd
    · simp [hvec, hne]
  · intro d hd hvec hne hnl hdin
    simp only [List.mem_filter] at hdin
    simp [hvec, hne, hnl] at hdin
  · intro d hdin hvec
    simp only [List.mem_filter] at hdin
    have := hdin.2
    simp only [hvec, Bool.true_and, Bool.not_eq_true', Bool.and_eq_false_iff,
      decide_eq_false_iff_not, not_not] at this
    rcases this with hne | hl
    · exact Or.inl (by simpa using hne)
    · exact Or.inr (by simpa using hl)
  · intro f hfp hf
    subst hfp
    simp [hf]

/-- Witness for C7: two stale directories, one locked by a concurrent
reader; the unlocked one is deleted, the locked one tolerated, the new
record points at the new directory. -/
theorem c7_bounded_growth_witness :
    (create_vector_db vfsStale "t" (some [docSeg]) (some "f")).1 =
      Except.ok ⟨"vectordb_" ++ "t", [docSeg]⟩
    ∧ Ev.rmtree "vectordb" ∈ (create_vector_db vfsStale "t" (some [docSeg]) (some "f")).2.2
    ∧ "vectordb" ∉ (create_vector_db vfsStale "t" (some [docSeg]) (some "f")).2.1.dirs
    ∧ (create_vector_db vfsStale "t" (some [docSeg]) (some "f")).2.1.cache =
        CacheFile.record ⟨some "f", some ("vectordb_" ++ "t")⟩ :=
  ⟨(c7_bounded_growth vfsStale "t" [docSeg] (some "f") rfl).1,
    (c7_bounded_growth vfsStale "t" [docSeg] (some "f") rfl).2.1 "vectordb"
      (by decide) (by decide) (by decide),
    (c7_bounded_growth vfsStale "t" [docSeg] (some "f") rfl).2.2.1 "vectordb"
      (by decide) (by decide) (by decide) (by decide),
    (c7_bounded_growth vfsStale "t" [docSeg] (some "f") rfl).2.2.2.2 "f" rfl (by decide)⟩

/-- C9 — Implicit: a rebuild without a fingerprint (the default, and how
the module-level `__main__` pipeline calls `create_vector_db`) builds and
returns the new index but never writes the cache record, while its
cleanup still deletes the unlocked `vectordb*` directory the existing
record points to — afterwards the unchanged record references a path that
no longer exists. -/
theorem c9_rebuild_without_fingerprint_strands_record (fs : VectorFS)
    (ts : String) (cs : List Doc) (r : CacheRecord) (f oldP : String)
    (hcache : fs.cache = .record r) (hrf : r.fingerprint = some f)
    (hrp : r.db_path = some oldP) (hvec : isVectorDbDir oldP = true)
    (hin : oldP ∈ fs.dirs) (hnl : oldP ∉ fs.locked)
    (hne : oldP ≠ "vectordb_" ++ ts) :
    (create_vector_db fs ts (some cs) none).1 = Except.ok ⟨"vectordb_" ++ ts, cs⟩
    ∧ (create_vector_db fs ts (some cs) none).2.1.cache = fs.cache
    ∧ oldP ∉ (create_vector_db fs ts (some cs) none).2.1.dirs
    ∧ (∀ q rec, Ev.writeFile q rec ∉ (create_vector_db fs ts (some cs) none).2.2) := by
  have hmiss : hasValidHit fs none = false := by
    unfold hasValidHit storedHitPath
    rw [hcache]
    simp [hrf]
  rw [create_vector_db_rebuild fs ts cs none hmiss]
  unfold rebuildVectorDb
  refine ⟨rfl, rfl, ?_, ?_⟩
  · intro hdin
    simp only [List.mem_filter] at hdin
    simp [hvec, hne, hnl] at hdin
  · intro q rec hmem
    simp at hmem

/-- Witness for C9: the record points at `vectordb_old`; after the
fingerprint-less rebuild the record is unchanged but its directory is
gone and no cache write happened. -/
theorem c9_rebuild_without_fingerprint_strands_record_witness :
    (create_vector_db vfsOldRecord "t" (some [docSeg]) none).1 =
      Except.ok ⟨"vectordb_" ++ "t", [docSeg]⟩
    ∧ (create_vector_db vfsOldRecord "t" (some [docSeg]) none).2.1.cache =
        vfsOldRecord.cache
    ∧ "vectordb_old" ∉ (create_vector_db vfsOldRecord "t" (some [docSeg]) none).2.1.dirs
    ∧ Ev.writeFile CACHE_PATH ⟨some "f", some "vectordb_old"⟩ ∉
        (create_vector_db vfsOldRecord "t" (some [docSeg]) none).2.2 :=
  ⟨(c9_rebuild_without_fingerprint_strands_record vfsOldRecord "t" [docSeg]
      ⟨some "f", some "vectordb_old"⟩ "f" "vectordb_old" rfl rfl rfl (by decide)
      (by decide) (by decide) (by decide)).1,
    (c9_rebuild_without_fingerprint_strands_record vfsOldRecord "t" [docSeg]
      ⟨some "f", some "vectordb_old"⟩ "f" "vectordb_old" rfl rfl rfl (by decide)
      (by decide) (by decide) (by decide)).2.1,
    (c9_rebuild_without_fingerprint_strands_record vfsOldRecord "t" [docSeg]
      ⟨some "f", some "vectordb_old"⟩ "f" "vectordb_old" rfl rfl rfl (by decide)
      (by decide) (by decide) (by decide)).2.2.1,
    (c9_rebuild_without_fingerprint_strands_record vfsOldRecord "t" [docSeg]
      ⟨some "f", some "vectordb_old"⟩ "f" "vectordb_old" rfl rfl rfl (by decide)
      (by decide) (by decide) (by decide)).2.2.2 CACHE_PATH
      ⟨some "f", some "vectordb_old"⟩⟩

/-- C8 amended — the RAG phase of `process` never lets an exception
propagate (it is total, every failure path yielding a context string),
and a call with an explicitly empty selection produces the exact labelled
"no documents selected" context with no state change — provided the
persisted cache record's fingerprint is not the digest of the
empty-selection state (a record the pipeline itself never writes, since
indexing requires a non-empty load); when that fingerprint does match,
the call still raises nothing but returns the cached index's retrieval
output or a cache-failure message instead of the label. -/
theorem c8_empty_selection_amended (env : RagEnv) (vfs : VectorFS) (query : String)
    (hmiss : cachedFingerprint vfs ≠ some (env.digest [])) :
    processRag env vfs (some []) query =
      ("Unable to retrieve documentation. No documents selected in the Knowledge Hub. Please select at least one document to provide context.",
        vfs, [REv.loadDocs]) := by
  have hfp : get_selection_fingerprint env.digest env.data (some []) = env.digest [] := rfl
  have hcond : ¬(cachedFingerprint vfs =
      some (get_selection_fingerprint env.digest env.data (some []))) := by
    rw [hfp]; exact hmiss
  unfold processRag
  rw [if_neg hcond]
  unfold ingestAndRetrieve
  rw [load_documents_nil]
  simp only [List.isEmpty_nil, if_pos]
  have hmsg : "Unable to retrieve documentation. " ++ emptyLoadDetail (some []) =
      "Unable to retrieve documentation. No documents selected in the Knowledge Hub. Please select at least one document to provide context." := by
    decide
  rw [hmsg]

/-- C8 counterexample — in a state whose persisted record carries the
empty-selection fingerprint and points at a loadable index, the empty
selection is served from the cache: the produced context is the
retrieval output, not a "no documents selected" label (no exception is
raised either way). -/
theorem c8_empty_selection_counterexample :
    (processRag envHit vfsHit (some []) "anything").1 = "SYNTHOUT"
    ∧ (processRag envHit vfsHit (some []) "anything").1 ≠
      "Unable to retrieve documentation. No documents selected in the Knowledge Hub. Please select at least one document to provide context." := by
  constructor
  · decide
  · decide

/-- Witness for C8 (amended): with no cache record, the empty selection
yields exactly the labelled context. -/
theorem c8_empty_selection_amended_witness :
    processRag envHit vfsAbsent (some []) "anything" =
      ("Unable to retrieve documentation. No documents selected in the Knowledge Hub. Please select at least one document to provide context.",
        vfsAbsent, [REv.loadDocs]) :=
  c8_empty_selection_amended envHit vfsAbsent "anything" (by decide)

end RagSpec
